import Mathlib

/-!
Shallow embedding of the CodeGeneratorAgent service (config.py,
response_generator.py, agents.py, endpoints.py, main.py).

Python strings are modelled as Lean `String`; the Python methods
`str.strip`, `str.lower` and `str.join` are modelled by `pyStrip`,
`pyLower` and `joinSep` below.  The remote Groq chat-completion client is
modelled as a function from the assembled chat request to
`Except String String`: `Except.error m` stands for the remote call (or
the subsequent access `response.choices[0].message.content`) raising an
exception whose message is `m`, and `Except.ok content` stands for the
call succeeding with first-choice message content `content`.
-/

set_option maxRecDepth 8192

namespace CodeGen

/-- Model of Python str.strip with no argument: remove whitespace
characters from both ends of the character list (Python strips Unicode
whitespace; on the ASCII whitespace relevant here the two agree). -/
def stripChars (cs : List Char) : List Char :=
  ((cs.dropWhile Char.isWhitespace).reverse.dropWhile Char.isWhitespace).reverse

/-- Model of Python str.strip on Lean strings. -/
def pyStrip (s : String) : String :=
  ⟨stripChars s.data⟩

/-- Model of Python str.lower: lowercase every character (Char.toLower
lowercases ASCII letters, which is all the call sites compare against). -/
def pyLower (s : String) : String :=
  ⟨s.data.map Char.toLower⟩

/-- Model of Python sep.join(parts). -/
def joinSep (sep : String) : List String → String
  | [] => ""
  | [s] => s
  | s :: rest => s ++ sep ++ joinSep sep rest

/-! Embedding of config.py.  The class attributes of Config are resolved
once from the process environment, modelled as a function from variable
names to optional values. -/

/-- Embedding of the Config class of config.py: the four exposed values. -/
structure Config where
  GROQ_API_KEY : Option String
  MODEL_ID : String
  MAX_TOKENS : Nat
  TEMPERATURE : ℚ
deriving DecidableEq

/-- Embedding of the class-attribute initializers of Config:
GROQ_API_KEY = os.getenv("GROQ_API_KEY") (no default),
MODEL_ID = os.getenv("MODEL_ID", "llama3-8b-8192"),
MAX_TOKENS = 1500, TEMPERATURE = 0.5. -/
def Config.fromEnv (env : String → Option String) : Config :=
  ⟨env "GROQ_API_KEY", (env "MODEL_ID").getD "llama3-8b-8192", 1500, 0.5⟩

/-! Embedding of response_generator.py. -/

/-- Embedding of the PromptRequest pydantic model: body of POST
/api/generate, language defaulting to "auto". -/
structure PromptRequest where
  prompt : String
  language : String
deriving DecidableEq

/-- The argument bundle passed to groq_client.chat.completions.create:
messages (role/content pairs), model, max_tokens, temperature. -/
structure ChatRequest where
  messages : List (String × String)
  model : String
  max_tokens : Nat
  temperature : ℚ

/-- Embedding of ResponseGenerator: its Config instance and its Groq
client.  The client maps the created chat request to either the first
choice message content (ok) or a raised exception message (error). -/
structure ResponseGenerator where
  config : Config
  groq_client : ChatRequest → Except String String

/-- The chat request that call_groq creates: the prompt as the sole user
message, with the configured model, token cap and temperature. -/
def ResponseGenerator.chatRequest (g : ResponseGenerator) (prompt : String) : ChatRequest :=
  ⟨[("user", prompt)], g.config.MODEL_ID, g.config.MAX_TOKENS, g.config.TEMPERATURE⟩

/-- Embedding of ResponseGenerator.call_groq: on success return the first
choice content stripped; any exception e raised in the try block is
caught and turned into the ordinary return value "Error: " + str(e). -/
def ResponseGenerator.call_groq (g : ResponseGenerator) (prompt : String) : String :=
  match g.groq_client (g.chatRequest prompt) with
  | Except.ok content => pyStrip content
  | Except.error e => "Error: " ++ e

/-! Embedding of agents.py. -/

/-- The system_prompt field of CodeAgent, byte for byte the triple-quoted
literal of agents.py (leading newline, 8-space indentation, trailing
newline and 8 spaces). -/
def system_prompt : String :=
  "\n        You are an AI code generation assistant specialized in building software projects.\n\n        Guidelines:\n        - If the user asks for a full project, structure it clearly (e.g. folders, files).\n        - If the user specifies a stack (language, framework, tools) in their prompt, follow it exactly.\n        - If no stack is specified, suggest 2-5 relevant basic to advance tech based on implementation difficulty levels stacks and ask the user to choose before proceeding.\n        - Once confirmed, build out the project step by step — include core files and essential setup.\n        - Always write clean, production-ready code.\n        - Include comments only for complex logic.\n        - Do not include explanations unless the user explicitly asks.\n        - Use appropriate file/folder names and clearly separate backend, frontend, and config files when relevant.\n        "

/-- Embedding of CodeAgent: it holds its ResponseGenerator (the
system_prompt field is the fixed constant above). -/
structure CodeAgent where
  generator : ResponseGenerator

/-- The prompt assembled by CodeAgent.generate_code:
prompt_parts = [system_prompt.strip()], plus "Target language: " + language
when language.lower() != "auto", plus "Instruction: " + instruction.strip(),
joined by "\n\n". -/
def CodeAgent.generate_prompt (instruction : String) (language : String) : String :=
  let prompt_parts := [pyStrip system_prompt]
  let prompt_parts :=
    if pyLower language ≠ "auto" then prompt_parts ++ ["Target language: " ++ language]
    else prompt_parts
  let prompt_parts := prompt_parts ++ ["Instruction: " ++ pyStrip instruction]
  joinSep "\n\n" prompt_parts

/-- Embedding of CodeAgent.generate_code: assemble the prompt and pass it
to the generator's call_groq. -/
def CodeAgent.generate_code (a : CodeAgent) (instruction : String) (language : String) : String :=
  a.generator.call_groq (CodeAgent.generate_prompt instruction language)

/-- The prompt built by CodeAgent.review_code (the unstripped
system_prompt, the review header, the code). -/
def CodeAgent.review_prompt (code : String) : String :=
  system_prompt ++ "\n\nReview this code and suggest improvements:\n\n" ++ code

/-- Embedding of CodeAgent.review_code. -/
def CodeAgent.review_code (a : CodeAgent) (code : String) : String :=
  a.generator.call_groq (CodeAgent.review_prompt code)

/-- The prompt built by CodeAgent.explain_code (the unstripped
system_prompt, the explain header, the code). -/
def CodeAgent.explain_prompt (code : String) : String :=
  system_prompt ++ "\n\nExplain this code step by step:\n\n" ++ code

/-- Embedding of CodeAgent.explain_code. -/
def CodeAgent.explain_code (a : CodeAgent) (code : String) : String :=
  a.generator.call_groq (CodeAgent.explain_prompt code)

/-! Embedding of endpoints.py and main.py. -/

/-- Outcome of an HTTP handler: a JSON object response with a status
code, or a raised HTTPException carrying a status code and a detail
string.  JSON objects are modelled as association lists of string keys
to string values. -/
inductive EndpointResult where
  | ok (status : Nat) (body : List (String × String))
  | httpException (status : Nat) (detail : String)
deriving DecidableEq

/-- The try/except structure of generate_response in endpoints.py: the
try body either produces the response text (ok) or raises an exception
with message e (error); the except branch re-raises HTTPException with
status_code 500 and detail str(e). -/
def generate_response_try (body : Except String String) : EndpointResult :=
  match body with
  | Except.ok response => EndpointResult.ok 200 [("response", response)]
  | Except.error e => EndpointResult.httpException 500 e

/-- Embedding of the POST /api/generate handler generate_response: it
calls agent.generate_code(request.prompt, request.language) inside the
try block.  In this embedding generate_code is a total function (call_groq
catches every remote exception), so the try body always yields ok. -/
def generate_response (agent : CodeAgent) (request : PromptRequest) : EndpointResult :=
  generate_response_try (Except.ok (agent.generate_code request.prompt request.language))

/-- Embedding of the GET / handler of main.py. -/
def root : EndpointResult :=
  EndpointResult.ok 200
    [("message", "AI Code Generator API is running!"), ("docs", "/docs")]

/-- Embedding of the GET /health handler of main.py. -/
def health : EndpointResult :=
  EndpointResult.ok 200
    [("status", "healthy"), ("service", "CodeGenerator API")]

/-- The routes of the application: GET /, GET /health, and POST
/api/generate with its parsed body. -/
inductive Route where
  | root
  | health
  | generate (request : PromptRequest)

/-- Dispatch one request to its handler.  The application holds no
mutable state (the module-level agent and configuration are read-only),
so dispatch depends only on the route. -/
def app_handle (agent : CodeAgent) : Route → EndpointResult
  | Route.root => root
  | Route.health => health
  | Route.generate request => generate_response agent request

/-- Run the application on a sequence of requests, producing the
sequence of responses. -/
def app_run (agent : CodeAgent) (requests : List Route) : List EndpointResult :=
  requests.map (app_handle agent)

/-! Line-level machinery for the prompt-content claims.  splitNl splits a
character list at every newline, the way the prompt decomposes into
lines. -/

/-- Split a character list into its newline-separated lines. -/
def splitNl : List Char → List (List Char)
  | [] => [[]]
  | c :: cs =>
    if c = '\n' then [] :: splitNl cs
    else
      match splitNl cs with
      | [] => [[c]]
      | l :: ls => (c :: l) :: ls

/-- Boolean test that the list s begins with the list pre. -/
def leadsWith : List Char → List Char → Bool
  | [], _ => true
  | _ :: _, [] => false
  | p :: ps, c :: cs => p == c && leadsWith ps cs

/-- Number of elements of a list of lines equal to the line t. -/
def countEq (t : List Char) : List (List Char) → Nat
  | [] => 0
  | l :: ls => (if l = t then 1 else 0) + countEq t ls

/-- Whether some line of the string begins with "Target language:". -/
def hasTargetLine (p : String) : Bool :=
  (splitNl p.data).any (leadsWith "Target language:".data)

/-- Number of lines of p equal to "Target language: " + language. -/
def targetLineCount (p : String) (language : String) : Nat :=
  countEq ("Target language: " ++ language).data (splitNl p.data)

/-! Basic lemmas about the helpers. -/

theorem data_append (s t : String) : (s ++ t).data = s.data ++ t.data := by
  cases s
  cases t
  rfl

theorem str_assoc (a b c : String) : a ++ b ++ c = a ++ (b ++ c) := by
  cases a with
  | mk ad =>
    cases b with
    | mk bd =>
      cases c with
      | mk cd => exact congrArg String.mk (List.append_assoc ad bd cd)

theorem splitNl_ne_nil : ∀ cs : List Char, splitNl cs ≠ []
  | [] => by simp [splitNl]
  | c :: cs => by
    simp only [splitNl]
    by_cases h : c = '\n'
    · simp [h]
    · simp only [if_neg h]
      cases hs : splitNl cs with
      | nil => simp
      | cons l ls => simp

theorem splitNl_cons_newline (cs : List Char) : splitNl ('\n' :: cs) = [] :: splitNl cs := by
  simp [splitNl]

theorem splitNl_cons_ne (c : Char) (cs : List Char) (h : c ≠ '\n')
    (l : List Char) (ls : List (List Char)) (hs : splitNl cs = l :: ls) :
    splitNl (c :: cs) = (c :: l) :: ls := by
  simp only [splitNl, if_neg h, hs]

theorem splitNl_surj_cons (cs : List Char) : ∃ l ls, splitNl cs = l :: ls := by
  cases hs : splitNl cs with
  | nil => exact absurd hs (splitNl_ne_nil cs)
  | cons l ls => exact ⟨l, ls, rfl⟩

theorem splitNl_newline_append (xs ys : List Char) :
    splitNl (xs ++ '\n' :: ys) = splitNl xs ++ splitNl ys := by
  induction xs with
  | nil => simp [splitNl]
  | cons c cs ih =>
    by_cases h : c = '\n'
    · subst h
      rw [List.cons_append, splitNl_cons_newline, splitNl_cons_newline, ih]
      simp
    · obtain ⟨l, ls, hs⟩ := splitNl_surj_cons cs
      have h1 : splitNl (cs ++ '\n' :: ys) = l :: (ls ++ splitNl ys) := by
        rw [ih, hs]
        rfl
      rw [List.cons_append, splitNl_cons_ne c _ h _ _ h1, splitNl_cons_ne c _ h _ _ hs]
      rfl

/-- Glue a list of characters onto the first line of a line list. -/
def glue (l : List Char) : List (List Char) → List (List Char)
  | [] => [l]
  | m :: ms => (l ++ m) :: ms

theorem splitNl_flat_append (xs ys : List Char) (h : '\n' ∉ xs) :
    splitNl (xs ++ ys) = glue xs (splitNl ys) := by
  obtain ⟨m, ms, hs⟩ := splitNl_surj_cons ys
  induction xs with
  | nil =>
    rw [List.nil_append, hs]
    simp [glue]
  | cons c cs ih =>
    have hc : c ≠ '\n' := by
      intro e
      exact h (by simp [e])
    have hcs : '\n' ∉ cs := fun hm => h (List.mem_cons_of_mem _ hm)
    obtain ⟨l, ls, hsub⟩ := splitNl_surj_cons (cs ++ ys)
    rw [List.cons_append, splitNl_cons_ne c _ hc _ _ hsub, hs]
    have hglue : l :: ls = (cs ++ m) :: ms := by
      have hih := ih hcs
      rw [hsub, hs] at hih
      simpa [glue] using hih
    injection hglue with h1 h2
    subst h1
    subst h2
    simp [glue, List.cons_append]

theorem splitNl_no_newline (xs : List Char) (h : '\n' ∉ xs) : splitNl xs = [xs] := by
  have hflat := splitNl_flat_append xs [] h
  simpa [glue, splitNl] using hflat

theorem leadsWith_self_append (xs rest : List Char) : leadsWith xs (xs ++ rest) = true := by
  induction xs with
  | nil => rfl
  | cons p ps ih => simp [leadsWith, ih]

theorem leadsWith_head_ne {p c : Char} (ps cs : List Char) (h : p ≠ c) :
    leadsWith (p :: ps) (c :: cs) = false := by
  have hb : (p == c) = false := by
    simp [h]
  simp [leadsWith, hb]

theorem countEq_append (t : List Char) (as bs : List (List Char)) :
    countEq t (as ++ bs) = countEq t as + countEq t bs := by
  induction as with
  | nil => simp [countEq]
  | cons l ls ih => simp [countEq, ih, Nat.add_assoc]

theorem countEq_eq_zero (t : List Char) (ls : List (List Char)) :
    countEq t ls = 0 ↔ ∀ l ∈ ls, l ≠ t := by
  induction ls with
  | nil => simp [countEq]
  | cons l ls ih =>
    by_cases h : l = t
    · simp [countEq, h]
    · simp [countEq, h, ih]

/-! Structure of the assembled prompt. -/

theorem generate_prompt_eq (i l : String) :
    CodeAgent.generate_prompt i l =
      if pyLower l = "auto"
      then pyStrip system_prompt ++ "\n\n" ++ ("Instruction: " ++ pyStrip i)
      else pyStrip system_prompt ++ "\n\n"
        ++ (("Target language: " ++ l) ++ "\n\n" ++ ("Instruction: " ++ pyStrip i)) := by
  by_cases h : pyLower l = "auto"
  · simp [CodeAgent.generate_prompt, joinSep, h]
  · simp [CodeAgent.generate_prompt, joinSep, h]

theorem lines_auto (i l : String) (h : pyLower l = "auto") :
    splitNl (CodeAgent.generate_prompt i l).data
      = splitNl (pyStrip system_prompt).data
        ++ [] :: glue "Instruction: ".data (splitNl (pyStrip i).data) := by
  rw [generate_prompt_eq, if_pos h]
  have hd : ((pyStrip system_prompt ++ "\n\n") ++ ("Instruction: " ++ pyStrip i)).data
      = (pyStrip system_prompt).data
        ++ '\n' :: '\n' :: ("Instruction: ".data ++ (pyStrip i).data) := by
    simp [data_append, show ("\n\n" : String).data = ['\n', '\n'] from rfl]
  rw [hd, splitNl_newline_append, splitNl_cons_newline,
    splitNl_flat_append _ _ (by decide)]

theorem lines_lang (i l : String) (h : pyLower l ≠ "auto") (h2 : '\n' ∉ l.data) :
    splitNl (CodeAgent.generate_prompt i l).data
      = splitNl (pyStrip system_prompt).data
        ++ [] :: ("Target language: " ++ l).data
        :: [] :: glue "Instruction: ".data (splitNl (pyStrip i).data) := by
  rw [generate_prompt_eq, if_neg h]
  have hno : '\n' ∉ ("Target language: " ++ l).data := by
    rw [data_append]
    intro hm
    rcases List.mem_append.mp hm with hm1 | hm2
    · exact absurd hm1 (by decide)
    · exact h2 hm2
  have hd : ((pyStrip system_prompt ++ "\n\n")
        ++ (("Target language: " ++ l) ++ "\n\n" ++ ("Instruction: " ++ pyStrip i))).data
      = (pyStrip system_prompt).data
        ++ '\n' :: '\n' :: (("Target language: " ++ l).data
          ++ '\n' :: '\n' :: ("Instruction: ".data ++ (pyStrip i).data)) := by
    simp [data_append, show ("\n\n" : String).data = ['\n', '\n'] from rfl]
  rw [hd, splitNl_newline_append, splitNl_cons_newline, splitNl_newline_append,
    splitNl_cons_newline, splitNl_no_newline _ hno,
    splitNl_flat_append _ _ (by decide)]
  simp

/-- No line of the stripped system template begins with "Target language:". -/
theorem sys_lines_clean :
    (splitNl (pyStrip system_prompt).data).any (leadsWith "Target language:".data) = false := by
  decide

theorem target_line_data (l : String) :
    ("Target language: " ++ l).data = 'T' :: ("arget language: ".data ++ l.data) := by
  rw [data_append, show ("Target language: " : String).data
    = 'T' :: "arget language: ".data from by decide]
  simp

/-- No line of the stripped system template equals a target-language line,
whatever the language value. -/
theorem sys_lines_count_zero (l : String) :
    countEq ("Target language: " ++ l).data (splitNl (pyStrip system_prompt).data) = 0 := by
  rw [countEq_eq_zero]
  intro x hx he
  have hlw : leadsWith "Target language:".data x = true := by
    subst he
    have hsplit : ("Target language: " ++ l).data
        = "Target language:".data ++ (' ' :: l.data) := by
      rw [data_append, show ("Target language: " : String).data
        = "Target language:".data ++ [' '] from by decide]
      simp
    rw [hsplit]
    exact leadsWith_self_append _ _
  have hfalse := (List.any_eq_false.mp sys_lines_clean) x hx
  exact absurd hlw hfalse

theorem lw_nil : leadsWith "Target language:".data [] = false := by decide

theorem lw_not_instruction (m : List Char) :
    leadsWith "Target language:".data ("Instruction: ".data ++ m) = false := by
  rw [show ("Instruction: " : String).data = 'I' :: "nstruction: ".data from by decide,
    show ("Target language:" : String).data = 'T' :: "arget language:".data from by decide]
  rw [List.cons_append]
  exact leadsWith_head_ne _ _ (by decide)

/-- Decomposition of the raw system prompt into leading whitespace, its
stripped core, and trailing whitespace. -/
theorem sys_decomp :
    system_prompt = "\n        " ++ (pyStrip system_prompt ++ "\n        ") := by
  decide

/-! Concrete agents used by the closed witness theorems. -/

/-- A concrete configuration. -/
def sampleConfig : Config :=
  ⟨some "key", "llama3-8b-8192", 1500, 0.5⟩

/-- A Groq client whose every call raises an exception with message "boom". -/
def failingClient : ChatRequest → Except String String :=
  fun _ => Except.error "boom"

/-- A Groq client whose every call succeeds with an untrimmed content. -/
def okClient : ChatRequest → Except String String :=
  fun _ => Except.ok "  hello world  "

/-- Agent whose remote calls always raise. -/
def failingAgent : CodeAgent :=
  ⟨⟨sampleConfig, failingClient⟩⟩

/-- Agent whose remote calls always succeed. -/
def okAgent : CodeAgent :=
  ⟨⟨sampleConfig, okClient⟩⟩

/-- A concrete request body for POST /api/generate. -/
def sampleRequest : PromptRequest :=
  ⟨"write a function", "auto"⟩

/-! The claims. -/

/-- C1: if the remote chat-completion call raises an exception with
message m while handling POST /api/generate, the endpoint still returns
HTTP 200 with body exactly response = "Error: " + m; the remote failure
is never surfaced as HTTP 500. -/
theorem C1_remote_error_returns_200 (agent : CodeAgent) (request : PromptRequest)
    (m : String)
    (h : agent.generator.groq_client
        (agent.generator.chatRequest
          (CodeAgent.generate_prompt request.prompt request.language))
      = Except.error m) :
    generate_response agent request
      = EndpointResult.ok 200 [("response", "Error: " ++ m)] := by
  unfold generate_response generate_response_try CodeAgent.generate_code
    ResponseGenerator.call_groq
  rw [h]

/-- C1 witness: the theorem applied to a concrete always-failing agent. -/
theorem C1_witness :
    failingAgent.generator.groq_client
        (failingAgent.generator.chatRequest
          (CodeAgent.generate_prompt sampleRequest.prompt sampleRequest.language))
      = Except.error "boom"
    ∧ generate_response failingAgent sampleRequest
      = EndpointResult.ok 200 [("response", "Error: " ++ "boom")] :=
  ⟨rfl, C1_remote_error_returns_200 failingAgent sampleRequest "boom" rfl⟩

/-- C2 counterexample: the claim quantifies over every instruction, but
an instruction that itself contains a "Target language:" line makes that
line appear in the assembled prompt even though language is "auto". -/
theorem C2_counterexample :
    ¬ (∀ (instruction language : String), pyLower language = "auto" →
        hasTargetLine (CodeAgent.generate_prompt instruction language) = false) := by
  intro hall
  have h := hall "a\nTarget language: x" "auto" (by decide)
  have ht : hasTargetLine (CodeAgent.generate_prompt "a\nTarget language: x" "auto")
      = true := by decide
  rw [ht] at h
  exact Bool.noConfusion h

/-- C2 (amended): when generate_code is called with language equal to any
letter-casing of "auto" and no line of the whitespace-trimmed instruction
begins with "Target language:", the assembled prompt contains no line
beginning with "Target language:". -/
theorem C2_no_target_language_line (i l : String)
    (h1 : pyLower l = "auto") (h2 : hasTargetLine (pyStrip i) = false) :
    hasTargetLine (CodeAgent.generate_prompt i l) = false := by
  unfold hasTargetLine at h2 ⊢
  rw [lines_auto i l h1]
  obtain ⟨m, ms, hs⟩ := splitNl_surj_cons (pyStrip i).data
  rw [hs] at h2 ⊢
  simp only [List.any_cons, List.any_append, glue, Bool.or_eq_false_iff] at h2 ⊢
  exact ⟨sys_lines_clean, lw_nil, lw_not_instruction m, h2.2⟩

/-- C2 witness: the amended theorem applied at a benign instruction. -/
theorem C2_witness :
    (pyLower "auto" = "auto" ∧ hasTargetLine (pyStrip "write a function") = false)
    ∧ hasTargetLine (CodeAgent.generate_prompt "write a function" "auto") = false :=
  ⟨⟨by decide, by decide⟩,
    C2_no_target_language_line "write a function" "auto" (by decide) (by decide)⟩

/-- C3 counterexample: with language "python" and an instruction that
itself ends in the line "Target language: python", the assembled prompt
contains that line twice, not exactly once. -/
theorem C3_counterexample :
    ¬ (∀ (instruction language : String), pyLower language ≠ "auto" →
        targetLineCount (CodeAgent.generate_prompt instruction language) language = 1) := by
  intro hall
  have h := hall "a\nTarget language: python" "python" (by decide)
  have ht : targetLineCount
      (CodeAgent.generate_prompt "a\nTarget language: python" "python") "python"
      = 2 := by decide
  rw [ht] at h
  exact Nat.noConfusion (Nat.succ.inj h)

/-- C3 (amended): for every instruction and every language whose
lowercasing is not "auto", provided the language contains no newline and
no line of the whitespace-trimmed instruction equals
"Target language: " + language, the assembled prompt contains exactly one
line equal to "Target language: " + language, the language inserted
verbatim with its casing unmodified. -/
theorem C3_exactly_one_target_line (i l : String)
    (h1 : pyLower l ≠ "auto") (h2 : '\n' ∉ l.data)
    (h3 : targetLineCount (pyStrip i) l = 0) :
    targetLineCount (CodeAgent.generate_prompt i l) l = 1 := by
  unfold targetLineCount at h3 ⊢
  rw [lines_lang i l h1 h2]
  obtain ⟨m, ms, hs⟩ := splitNl_surj_cons (pyStrip i).data
  rw [hs] at h3 ⊢
  have hms : countEq ("Target language: " ++ l).data ms = 0 := by
    rw [countEq_eq_zero]
    intro x hx
    exact (countEq_eq_zero _ _).mp h3 x (List.mem_cons_of_mem _ hx)
  have e1 : ¬(([] : List Char) = ("Target language: " ++ l).data) := by
    rw [target_line_data]
    intro hcon
    exact List.noConfusion hcon
  have e2 : ¬(("Instruction: ".data ++ m) = ("Target language: " ++ l).data) := by
    rw [target_line_data,
      show ("Instruction: " : String).data = 'I' :: "nstruction: ".data from by decide,
      List.cons_append]
    intro hcon
    injection hcon with hh _
    exact absurd hh (by decide)
  rw [countEq_append, sys_lines_count_zero _]
  simp only [glue, countEq, if_neg e1, if_pos rfl, if_neg e2, hms]
  simp

/-- C3 witness: the amended theorem applied at a benign instruction and
language. -/
theorem C3_witness :
    (pyLower "Python" ≠ "auto" ∧ '\n' ∉ "Python".data
      ∧ targetLineCount (pyStrip "write a function") "Python" = 0)
    ∧ targetLineCount (CodeAgent.generate_prompt "write a function" "Python") "Python"
      = 1 :=
  ⟨⟨by decide, by decide, by decide⟩,
    C3_exactly_one_target_line "write a function" "Python" (by decide) (by decide)
      (by decide)⟩

/-- C4: the assembled prompt is exactly the stripped system template,
then (when the language is not a casing of "auto") the target-language
line, then "Instruction: " followed by the trimmed instruction, the
segments joined by exactly one blank line each; in particular the prompt
ends with "Instruction: " + trimmed instruction as its final segment. -/
theorem C4_prompt_segments (i l : String) :
    (CodeAgent.generate_prompt i l =
      if pyLower l = "auto"
      then pyStrip system_prompt ++ "\n\n" ++ ("Instruction: " ++ pyStrip i)
      else pyStrip system_prompt ++ "\n\n"
        ++ (("Target language: " ++ l) ++ "\n\n" ++ ("Instruction: " ++ pyStrip i)))
    ∧ ∃ pre : String, CodeAgent.generate_prompt i l = pre ++ ("Instruction: " ++ pyStrip i) := by
  refine ⟨generate_prompt_eq i l, ?_⟩
  by_cases h : pyLower l = "auto"
  · exact ⟨pyStrip system_prompt ++ "\n\n", by rw [generate_prompt_eq, if_pos h]⟩
  · refine ⟨pyStrip system_prompt ++ "\n\n" ++ ("Target language: " ++ l) ++ "\n\n", ?_⟩
    rw [generate_prompt_eq, if_neg h]
    simp [str_assoc]

/-- C5: when the remote call succeeds with first-choice content, call_groq
returns that content trimmed, and POST /api/generate returns 200 with body
exactly response = trimmed content. -/
theorem C5_success_returns_trimmed (agent : CodeAgent) (request : PromptRequest)
    (content : String)
    (h : agent.generator.groq_client
        (agent.generator.chatRequest
          (CodeAgent.generate_prompt request.prompt request.language))
      = Except.ok content) :
    agent.generator.call_groq (CodeAgent.generate_prompt request.prompt request.language)
      = pyStrip content
    ∧ generate_response agent request
      = EndpointResult.ok 200 [("response", pyStrip content)] := by
  constructor
  · unfold ResponseGenerator.call_groq
    rw [h]
  · unfold generate_response generate_response_try CodeAgent.generate_code
      ResponseGenerator.call_groq
    rw [h]

/-- C5 witness: the theorem applied to a concrete always-succeeding agent. -/
theorem C5_witness :
    okAgent.generator.groq_client
        (okAgent.generator.chatRequest
          (CodeAgent.generate_prompt sampleRequest.prompt sampleRequest.language))
      = Except.ok "  hello world  "
    ∧ (okAgent.generator.call_groq
          (CodeAgent.generate_prompt sampleRequest.prompt sampleRequest.language)
        = pyStrip "  hello world  "
      ∧ generate_response okAgent sampleRequest
        = EndpointResult.ok 200 [("response", pyStrip "  hello world  ")]) :=
  ⟨rfl, C5_success_returns_trimmed okAgent sampleRequest "  hello world  " rfl⟩

/-- C6: an exception raised inside the try block of the /api/generate
handler, other than those swallowed inside call_groq, is caught and
re-signaled as an HTTP 500 whose detail is the exception message. -/
theorem C6_unexpected_exception_becomes_500 (e : String) :
    generate_response_try (Except.error e) = EndpointResult.httpException 500 e := rfl

/-- C7: review_code dispatches system_prompt + the review header + the
code, explain_code dispatches system_prompt + the explain header + the
code; the stripped system template prefixes every generate_code prompt
and occurs inside both the review and the explain prompt. -/
theorem C7_review_explain_prompts (code : String) :
    CodeAgent.review_prompt code
      = system_prompt ++ "\n\nReview this code and suggest improvements:\n\n" ++ code
    ∧ CodeAgent.explain_prompt code
      = system_prompt ++ "\n\nExplain this code step by step:\n\n" ++ code
    ∧ (∀ a : CodeAgent,
        a.review_code code = a.generator.call_groq (CodeAgent.review_prompt code)
        ∧ a.explain_code code = a.generator.call_groq (CodeAgent.explain_prompt code))
    ∧ (∀ i l : String, ∃ rest : String,
        CodeAgent.generate_prompt i l = pyStrip system_prompt ++ rest)
    ∧ (∃ s t : String, CodeAgent.review_prompt code = s ++ (pyStrip system_prompt ++ t))
    ∧ (∃ s t : String, CodeAgent.explain_prompt code = s ++ (pyStrip system_prompt ++ t)) := by
  refine ⟨rfl, rfl, fun a => ⟨rfl, rfl⟩, ?_, ?_, ?_⟩
  · intro i l
    by_cases h : pyLower l = "auto"
    · refine ⟨"\n\n" ++ ("Instruction: " ++ pyStrip i), ?_⟩
      rw [generate_prompt_eq, if_pos h, str_assoc]
    · refine ⟨"\n\n" ++ (("Target language: " ++ l) ++ "\n\n" ++ ("Instruction: " ++ pyStrip i)), ?_⟩
      rw [generate_prompt_eq, if_neg h, str_assoc]
  · refine ⟨"\n        ",
      "\n        " ++ ("\n\nReview this code and suggest improvements:\n\n" ++ code), ?_⟩
    show system_prompt ++ "\n\nReview this code and suggest improvements:\n\n" ++ code = _
    conv_lhs => rw [sys_decomp]
    simp only [str_assoc]
  · refine ⟨"\n        ",
      "\n        " ++ ("\n\nExplain this code step by step:\n\n" ++ code), ?_⟩
    show system_prompt ++ "\n\nExplain this code step by step:\n\n" ++ code = _
    conv_lhs => rw [sys_decomp]
    simp only [str_assoc]

/-- C8: for every request whose prompt and language are strings, the 500
branch of the /api/generate handler is unreachable: generate_code is a
total function (prompt assembly is total on strings and call_groq catches
every remote exception), so the handler always answers 200 with the
generate_code text. -/
theorem C8_500_branch_unreachable (agent : CodeAgent) (request : PromptRequest) :
    generate_response agent request
      = EndpointResult.ok 200
          [("response", agent.generate_code request.prompt request.language)]
    ∧ ∀ (s : Nat) (d : String),
        generate_response agent request ≠ EndpointResult.httpException s d := by
  constructor
  · rfl
  · intro s d hcon
    exact EndpointResult.noConfusion hcon

/-- C9: the configuration exposes exactly its four values: the API key
read from GROQ_API_KEY with no default and no presence check, the model
identifier read from MODEL_ID with fallback "llama3-8b-8192", the token
cap 1500 and the temperature 0.5. -/
theorem C9_config_values (env : String → Option String) :
    (Config.fromEnv env).GROQ_API_KEY = env "GROQ_API_KEY"
    ∧ (Config.fromEnv env).MODEL_ID = (env "MODEL_ID").getD "llama3-8b-8192"
    ∧ (Config.fromEnv env).MAX_TOKENS = 1500
    ∧ (Config.fromEnv env).TEMPERATURE = 0.5 :=
  ⟨rfl, rfl, rfl, rfl⟩

/-- C10: after any sequence of prior requests, GET / answers 200 with its
fixed payload and GET /health answers 200 with its fixed payload; the
application holds no state, so neither route can fail or vary. -/
theorem C10_fixed_get_routes (agent : CodeAgent) (prior : List Route) :
    app_run agent (prior ++ [Route.root])
      = app_run agent prior
        ++ [EndpointResult.ok 200
            [("message", "AI Code Generator API is running!"), ("docs", "/docs")]]
    ∧ app_run agent (prior ++ [Route.health])
      = app_run agent prior
        ++ [EndpointResult.ok 200
            [("status", "healthy"), ("service", "CodeGenerator API")]] := by
  constructor
  · simp [app_run, app_handle, root]
  · simp [app_run, app_handle, health]

end CodeGen
